import Mathlib

/-!
Verification development for the persistence layer of the Trackah
nutrition tracker (`src/app.py`).  The `DataManager` class is embedded
shallowly: its hybrid state (a Firestore remote store or a local SQLite
store, selected by `use_firestore`) becomes an explicit state record, each
method becomes a pure function on that record, Python dicts with possibly
missing keys become records of `Option` fields, SQL `REAL` columns are
modelled as `ℚ` and `INTEGER` columns as `ℤ`, and a `KeyError` or a
sqlite/ValueError exception becomes `Except.error`.  Each remote-store
(Firestore) call performed by a method is counted in a `Nat` component of
the result, so that "performs no network I/O" is expressible as that count
being `0`.  The random identifiers produced by `uuid.uuid4()` and by
Firestore's auto-id `add` are supplied as explicit arguments.
-/

namespace Trackah

/-- Lexicographic comparison of character lists, the order Python uses to
compare strings (elementwise by code point, shorter prefix first). -/
def charListLe : List Char → List Char → Bool
  | [], _ => true
  | _ :: _, [] => false
  | a :: as, b :: bs =>
    if a < b then true else if b < a then false else charListLe as bs

/-- Python's `s <= t` on strings: lexicographic by code point.  The date
strings this layer compares are `"YYYY-MM-DD"`, for which this coincides
with chronological order. -/
def strLe (a b : String) : Bool := charListLe a.data b.data

/-- Value of a decimal digit character, `none` for a non-digit. -/
def digitVal? (c : Char) : Option Nat :=
  if '0' ≤ c ∧ c ≤ '9' then some (c.toNat - '0'.toNat) else none

/-- Accumulating decimal parse of a character list, `none` on a non-digit. -/
def digitsVal? : List Char → Nat → Option Nat
  | [], acc => some acc
  | c :: cs, acc =>
    match digitVal? c with
    | some d => digitsVal? cs (acc * 10 + d)
    | none => none

/-- Python's `int(s)` restricted to what the app passes it: an optional
minus sign followed by decimal digits parses; anything else (e.g. a uuid
string) raises `ValueError`, modelled as `none`. -/
def pyInt? (s : String) : Option Int :=
  match s.data with
  | [] => none
  | '-' :: rest =>
    match rest with
    | [] => none
    | _ => (digitsVal? rest 0).map (fun n => -(n : Int))
  | l => (digitsVal? l 0).map (fun n => (n : Int))

/-- Profile dict handled by `update_user_profile` / `get_user_profile`:
keys `height_cm, weight_kg, bf_percent, activity_level, goal, diet_type,
target_calories, target_protein, target_carbs, target_fats`.  The callers in
`main` always pass all ten keys, so the dict is modelled as a total record;
`REAL` values are modelled as `ℚ`. -/
structure ProfileData where
  height_cm : ℚ
  weight_kg : ℚ
  bf_percent : ℚ
  activity_level : String
  goal : String
  diet_type : String
  target_calories : ℚ
  target_protein : ℚ
  target_carbs : ℚ
  target_fats : ℚ
deriving DecidableEq, Repr

/-- Row of the SQLite `users` table (`id INTEGER PRIMARY KEY` plus the ten
profile columns, here kept as a nested `ProfileData`). -/
structure ProfileRow where
  id : Int
  data : ProfileData
deriving DecidableEq, Repr

/-- A food-log dict as it flows through `add_food_log` / `get_logs_for_date`:
a Python dict whose keys may be absent, hence every field is an `Option`
(`none` models a missing key, and also an SQL `NULL` on the read side).
The `id` key that the read paths add (SQLite rowid / Firestore document id)
is not part of the entity's own fields and is omitted here. -/
structure FoodDoc where
  date : Option String := none
  food_name : Option String := none
  amount_desc : Option String := none
  calories : Option Int := none
  protein : Option Int := none
  carbs : Option Int := none
  fats : Option Int := none
  fiber : Option Int := none
  sugar : Option Int := none
  sodium : Option Int := none
  saturated_fat : Option Int := none
  vitamin_a : Option Int := none
  vitamin_c : Option Int := none
  vitamin_d : Option Int := none
  calcium : Option Int := none
  iron : Option Int := none
  potassium : Option Int := none
  magnesium : Option Int := none
  zinc : Option Int := none
  nutrients : Option String := none
  note : Option String := none
  uid : Option String := none
deriving DecidableEq, Repr

/-- A food-log dict in which every key used by the SQLite `INSERT` of
`add_food_log` is present (the shape produced by the app's AI-analysis
callers); `uid` is not included because `add_food_log` itself assigns it. -/
structure FoodLogData where
  date : String
  food_name : String
  amount_desc : String
  calories : Int
  protein : Int
  carbs : Int
  fats : Int
  fiber : Int
  sugar : Int
  sodium : Int
  saturated_fat : Int
  vitamin_a : Int
  vitamin_c : Int
  vitamin_d : Int
  calcium : Int
  iron : Int
  potassium : Int
  magnesium : Int
  zinc : Int
  note : String
deriving DecidableEq, Repr

/-- View of a complete `FoodLogData` as the dict passed to `add_food_log`. -/
def toPayload (d : FoodLogData) : FoodDoc :=
  { date := some d.date
    food_name := some d.food_name
    amount_desc := some d.amount_desc
    calories := some d.calories
    protein := some d.protein
    carbs := some d.carbs
    fats := some d.fats
    fiber := some d.fiber
    sugar := some d.sugar
    sodium := some d.sodium
    saturated_fat := some d.saturated_fat
    vitamin_a := some d.vitamin_a
    vitamin_c := some d.vitamin_c
    vitamin_d := some d.vitamin_d
    calcium := some d.calcium
    iron := some d.iron
    potassium := some d.potassium
    magnesium := some d.magnesium
    zinc := some d.zinc
    nutrients := none
    note := some d.note
    uid := none }

/-- Row of the SQLite `food_logs` table.  The `nutrients` column exists in
the schema but is never listed in the `INSERT` of `add_food_log`, so it is
`NULL` (`none`) on every row this layer writes. -/
structure FoodRow where
  id : Int
  date : String
  food_name : String
  amount_desc : String
  calories : Int
  protein : Int
  carbs : Int
  fats : Int
  fiber : Int
  sugar : Int
  sodium : Int
  saturated_fat : Int
  vitamin_a : Int
  vitamin_c : Int
  vitamin_d : Int
  calcium : Int
  iron : Int
  potassium : Int
  magnesium : Int
  zinc : Int
  nutrients : Option String
  note : String
  uid : String
deriving DecidableEq, Repr

/-- Body-stat dict handled by `add_body_stat` (keys `date`, `weight_kg`,
`bf_percent`; the code stores nothing else for a body stat — no uid). -/
structure BodyStatData where
  date : String
  weight_kg : ℚ
  bf_percent : ℚ
deriving DecidableEq, Repr

/-- Row of the SQLite `body_stats` table
(`id INTEGER PRIMARY KEY, date TEXT, weight_kg REAL, bf_percent REAL`). -/
structure BodyRow where
  id : Int
  date : String
  weight_kg : ℚ
  bf_percent : ℚ
deriving DecidableEq, Repr

/-- Template document built by `add_template`: `food_items_json` is
`json.dumps(food_data)`, modelled as the (opaque, round-tripping) dict
itself; `total_calories`/`total_protein` come from
`food_data.get('calories', 0)` / `food_data.get('protein', 0)`. -/
structure TemplateDoc where
  name : String
  food_items_json : FoodDoc
  total_calories : Int
  total_protein : Int
  default_type : String
  uid : String
deriving DecidableEq, Repr

/-- Row of the SQLite `templates` table (auto `id` plus the template
payload columns). -/
structure TemplateRow where
  id : Int
  data : TemplateDoc
deriving DecidableEq, Repr

/-- The local SQLite database `fitness_data.db` as created by
`DataManager._init_sqlite`: the four entity tables, plus the next value of
each `INTEGER PRIMARY KEY` auto key. -/
structure SqliteDB where
  users : List ProfileRow
  food_logs : List FoodRow
  body_stats : List BodyRow
  templates : List TemplateRow
  next_food_id : Int
  next_body_id : Int
  next_template_id : Int
deriving DecidableEq, Repr

/-- Fresh SQLite database right after `_init_sqlite` (all tables empty). -/
def emptySqlite : SqliteDB :=
  { users := [], food_logs := [], body_stats := [], templates := []
    next_food_id := 1, next_body_id := 1, next_template_id := 1 }

/-- The remote Firestore database: collection `users` holds the single
document `'profile'`; the other collections map auto-generated document ids
to entity documents, kept in stream order. -/
structure FirestoreDB where
  profile : Option ProfileData
  food_logs : List (String × FoodDoc)
  body_stats : List (String × BodyStatData)
  templates : List (String × TemplateDoc)
deriving DecidableEq, Repr

/-- Empty Firestore state. -/
def emptyFS : FirestoreDB :=
  { profile := none, food_logs := [], body_stats := [], templates := [] }

/-- State of a `DataManager` instance: which backend is active, the
recorded construction error, and both stores. -/
structure DataManager where
  use_firestore : Bool
  connection_error : Option String
  db : FirestoreDB
  sq : SqliteDB
deriving DecidableEq, Repr

/-- The `firestore.Client(...)` construction inside the `try` of
`DataManager.__init__`; `clientOk` says whether it raises. -/
def tryCreateClient (clientOk : Bool) : Except String Unit :=
  if clientOk then Except.ok () else Except.error "client construction failed"

/-- Embedding of `DataManager.__init__`: `hasLib` is `HAS_FIRESTORE_LIB`,
`hasSecrets` is `"gcp_service_account" in st.secrets`, and `clientOk` says
whether credential parsing and `firestore.Client` construction succeed.
Any client-construction exception is caught and recorded in
`connection_error`; when Firestore is not used, `_init_sqlite` runs and
the (fresh-process) local store starts empty.  The function is total:
construction never propagates an exception. -/
def initDM (hasLib hasSecrets clientOk : Bool) : DataManager :=
  let base : DataManager :=
    { use_firestore := false, connection_error := none
      db := emptyFS, sq := emptySqlite }
  if hasLib && hasSecrets then
    match tryCreateClient clientOk with
    | Except.ok _ => { base with use_firestore := true }
    | Except.error e => { base with connection_error := some e }
  else base

/-- Embedding of `DataManager.get_user_profile`.  The second component of
the result counts remote-store (Firestore) calls made during the call. -/
def get_user_profile (m : DataManager) : Option ProfileData × Nat :=
  if m.use_firestore then (m.db.profile, 1)
  else ((m.sq.users.find? (fun r => r.id == 1)).map (fun r => r.data), 0)

/-- SQLite branch of `update_user_profile`: `UPDATE ... WHERE id=1` when a
row with `id=1` exists, else `INSERT ... VALUES (1, ...)`. -/
def update_user_profileS (d : ProfileData) (s : SqliteDB) : SqliteDB :=
  if s.users.any (fun r => r.id == 1) then
    { s with users := s.users.map (fun r => if r.id == 1 then { id := 1, data := d } else r) }
  else
    { s with users := s.users ++ [{ id := 1, data := d }] }

/-- Embedding of `DataManager.update_user_profile`.  On Firestore it is
`collection('users').document('profile').set(data)` (one remote call). -/
def update_user_profile (d : ProfileData) (m : DataManager) : DataManager × Nat :=
  if m.use_firestore then
    ({ m with db := { m.db with profile := some d } }, 1)
  else
    ({ m with sq := update_user_profileS d m.sq }, 0)

/-- Dict lookup `data[key]`: raises `KeyError` when the key is absent. -/
def req {α : Type} (key : String) (v : Option α) : Except String α :=
  match v with
  | some x => Except.ok x
  | none => Except.error ("KeyError: " ++ key)

/-- SQLite branch of `add_food_log`: the `INSERT INTO food_logs (...)`,
whose value tuple reads every listed key from the dict (a missing key
raises `KeyError`); the row gets the next auto id, and the `nutrients`
column — absent from the column list — stays `NULL`. -/
def add_food_logS (p : FoodDoc) (s : SqliteDB) : Except String SqliteDB := do
  let date ← req "date" p.date
  let food_name ← req "food_name" p.food_name
  let amount_desc ← req "amount_desc" p.amount_desc
  let calories ← req "calories" p.calories
  let protein ← req "protein" p.protein
  let carbs ← req "carbs" p.carbs
  let fats ← req "fats" p.fats
  let fiber ← req "fiber" p.fiber
  let sugar ← req "sugar" p.sugar
  let sodium ← req "sodium" p.sodium
  let saturated_fat ← req "saturated_fat" p.saturated_fat
  let vitamin_a ← req "vitamin_a" p.vitamin_a
  let vitamin_c ← req "vitamin_c" p.vitamin_c
  let vitamin_d ← req "vitamin_d" p.vitamin_d
  let calcium ← req "calcium" p.calcium
  let iron ← req "iron" p.iron
  let potassium ← req "potassium" p.potassium
  let magnesium ← req "magnesium" p.magnesium
  let zinc ← req "zinc" p.zinc
  let note ← req "note" p.note
  let uid ← req "uid" p.uid
  let row : FoodRow :=
    { id := s.next_food_id
      date := date
      food_name := food_name
      amount_desc := amount_desc
      calories := calories
      protein := protein
      carbs := carbs
      fats := fats
      fiber := fiber
      sugar := sugar
      sodium := sodium
      saturated_fat := saturated_fat
      vitamin_a := vitamin_a
      vitamin_c := vitamin_c
      vitamin_d := vitamin_d
      calcium := calcium
      iron := iron
      potassium := potassium
      magnesium := magnesium
      zinc := zinc
      nutrients := none
      note := note
      uid := uid }
  Except.ok { s with
    food_logs := s.food_logs ++ [row]
    next_food_id := s.next_food_id + 1 }

/-- Embedding of `DataManager.add_food_log`: first `data['uid']` is set to a
fresh `uuid.uuid4()` (the `uid` argument); on Firestore the dict is added to
`food_logs` under an auto-generated document id (the `docId` argument, one
remote call); on SQLite the `INSERT` above runs. -/
def add_food_log (p : FoodDoc) (uid docId : String) (m : DataManager) :
    Except String (DataManager × Nat) :=
  let data := { p with uid := some uid }
  if m.use_firestore then
    Except.ok ({ m with db := { m.db with food_logs := m.db.food_logs ++ [(docId, data)] } }, 1)
  else
    (add_food_logS data m.sq).map (fun s => ({ m with sq := s }, 0))

/-- SQLite branch of `delete_food_log`:
`try: DELETE ... WHERE id=int(log_id)` / bare `except:` /
`DELETE ... WHERE uid=log_id`.  `fault1` (resp. `fault2`) says whether the
storage layer raises a disk/transaction error on the first (resp. second)
`conn.execute`.  The bare `except:` catches any error of the first
statement — a `ValueError` from `int(log_id)` as well as a storage error —
and runs the uid-based delete instead; an error in the second statement
propagates. -/
def delete_food_logS (log_id : String) (fault1 fault2 : Bool) (s : SqliteDB) :
    Except String SqliteDB :=
  let attempt : Except String SqliteDB :=
    if fault1 then Except.error "sqlite3.OperationalError"
    else
      match pyInt? log_id with
      | some n => Except.ok { s with food_logs := s.food_logs.filter (fun r => r.id != n) }
      | none => Except.error "ValueError"
  match attempt with
  | Except.ok s2 => Except.ok s2
  | Except.error _ =>
    if fault2 then Except.error "sqlite3.OperationalError"
    else Except.ok { s with food_logs := s.food_logs.filter (fun r => r.uid != log_id) }

/-- Embedding of `DataManager.delete_food_log`.  On Firestore it is
`collection('food_logs').document(log_id).delete()` (one remote call). -/
def delete_food_log (log_id : String) (fault1 fault2 : Bool) (m : DataManager) :
    Except String (DataManager × Nat) :=
  if m.use_firestore then
    Except.ok ({ m with db := { m.db with
      food_logs := m.db.food_logs.filter (fun kv => kv.1 != log_id) } }, 1)
  else
    (delete_food_logS log_id fault1 fault2 m.sq).map (fun s => ({ m with sq := s }, 0))

/-- Embedding of `DataManager.delete_day_logs`.  On Firestore it streams the
matching documents and deletes each (counted as one call for the stream
plus one per deleted document). -/
def delete_day_logs (date_str : String) (m : DataManager) : DataManager × Nat :=
  if m.use_firestore then
    let victims := m.db.food_logs.filter (fun kv => kv.2.date == some date_str)
    ({ m with db := { m.db with
        food_logs := m.db.food_logs.filter (fun kv => kv.2.date != some date_str) } },
      1 + victims.length)
  else
    ({ m with sq := { m.sq with
        food_logs := m.sq.food_logs.filter (fun r => r.date != date_str) } }, 0)

/-- The missing-key defaulting loop of the Firestore branch of
`get_logs_for_date`: exactly the eight keys `calories, protein, carbs,
fats, fiber, sugar, sodium, saturated_fat` are set to `0` when absent;
every other key (micronutrients included) is left as stored. -/
def applyDefaults (d : FoodDoc) : FoodDoc :=
  { d with
    calories := some (d.calories.getD 0)
    protein := some (d.protein.getD 0)
    carbs := some (d.carbs.getD 0)
    fats := some (d.fats.getD 0)
    fiber := some (d.fiber.getD 0)
    sugar := some (d.sugar.getD 0)
    sodium := some (d.sodium.getD 0)
    saturated_fat := some (d.saturated_fat.getD 0) }

/-- View of a SQLite `food_logs` row as the dict returned by
`dict(sqlite3.Row)`; every column is present (the rowid `id` key is
omitted, as in `FoodDoc`). -/
def rowToDoc (r : FoodRow) : FoodDoc :=
  { date := some r.date
    food_name := some r.food_name
    amount_desc := some r.amount_desc
    calories := some r.calories
    protein := some r.protein
    carbs := some r.carbs
    fats := some r.fats
    fiber := some r.fiber
    sugar := some r.sugar
    sodium := some r.sodium
    saturated_fat := some r.saturated_fat
    vitamin_a := some r.vitamin_a
    vitamin_c := some r.vitamin_c
    vitamin_d := some r.vitamin_d
    calcium := some r.calcium
    iron := some r.iron
    potassium := some r.potassium
    magnesium := some r.magnesium
    zinc := some r.zinc
    nutrients := r.nutrients
    note := some r.note
    uid := some r.uid }

/-- Embedding of `DataManager.get_logs_for_date`:  Firestore filters the
collection on `date ==` and patches the eight default keys; SQLite selects
the matching rows (in rowid order). -/
def get_logs_for_date (date_str : String) (m : DataManager) : List FoodDoc × Nat :=
  if m.use_firestore then
    ((m.db.food_logs.filter (fun kv => kv.2.date == some date_str)).map
        (fun kv => applyDefaults kv.2), 1)
  else
    ((m.sq.food_logs.filter (fun r => r.date == date_str)).map rowToDoc, 0)

/-- Embedding of `DataManager.get_logs_history`:  Firestore filters the
collection on `date >=` (a document with no `date` field is excluded by
the range query) and applies no defaults; SQLite selects
`WHERE date >= start ORDER BY id DESC`, i.e. the matching rows in reverse
rowid (insertion) order. -/
def get_logs_history (start_date_str : String) (m : DataManager) : List FoodDoc × Nat :=
  if m.use_firestore then
    ((m.db.food_logs.filter (fun kv =>
        match kv.2.date with
        | some dt => strLe start_date_str dt
        | none => false)).map (fun kv => kv.2), 1)
  else
    (((m.sq.food_logs.filter (fun r => strLe start_date_str r.date)).reverse).map rowToDoc, 0)

/-- Embedding of `DataManager.add_body_stat`: the SQLite `INSERT` stores
only `date, weight_kg, bf_percent` (the table has no uid column, and none
is generated); Firestore adds the dict as-is under an auto document id. -/
def add_body_stat (d : BodyStatData) (docId : String) (m : DataManager) :
    DataManager × Nat :=
  if m.use_firestore then
    ({ m with db := { m.db with body_stats := m.db.body_stats ++ [(docId, d)] } }, 1)
  else
    ({ m with sq := { m.sq with
        body_stats := m.sq.body_stats ++
          [{ id := m.sq.next_body_id, date := d.date
             weight_kg := d.weight_kg, bf_percent := d.bf_percent }]
        next_body_id := m.sq.next_body_id + 1 } }, 0)

/-- Stable insertion into a date-ascending list (model of the ordering the
SQL `ORDER BY date` produces). -/
def insertByDateAsc (x : BodyStatData) : List BodyStatData → List BodyStatData
  | [] => [x]
  | y :: t => if strLe x.date y.date then x :: y :: t else y :: insertByDateAsc x t

/-- Stable sort of body stats ascending by the `date` string. -/
def sortByDateAsc : List BodyStatData → List BodyStatData
  | [] => []
  | x :: t => insertByDateAsc x (sortByDateAsc t)

/-- View of a SQLite `body_stats` row as the returned record dict
(the rowid `id` key is omitted). -/
def bodyRowToData (r : BodyRow) : BodyStatData :=
  { date := r.date, weight_kg := r.weight_kg, bf_percent := r.bf_percent }

/-- Embedding of `DataManager.get_body_stats_history`: SQLite runs
`SELECT * FROM body_stats ORDER BY date`; Firestore streams the collection
with no ordering clause — documents arrive in stream (document-id) order,
which is unrelated to the `date` field and is modelled as stored order. -/
def get_body_stats_history (m : DataManager) : List BodyStatData × Nat :=
  if m.use_firestore then
    (m.db.body_stats.map (fun kv => kv.2), 1)
  else
    (sortByDateAsc (m.sq.body_stats.map bodyRowToData), 0)

/-- Stable insertion into a date-descending list (model of Python's stable
`list.sort(key=..., reverse=True)` in `get_latest_body_stat`). -/
def insertByDateDesc (x : BodyStatData) : List BodyStatData → List BodyStatData
  | [] => [x]
  | y :: t => if strLe y.date x.date then x :: y :: t else y :: insertByDateDesc x t

/-- Stable sort of body stats descending by the `date` string. -/
def sortByDateDesc : List BodyStatData → List BodyStatData
  | [] => []
  | x :: t => insertByDateDesc x (sortByDateDesc t)

/-- Embedding of `DataManager.get_latest_body_stat`: fetch the history,
sort it by date descending, return the first element (or `None` when the
history is empty). -/
def get_latest_body_stat (m : DataManager) : Option BodyStatData × Nat :=
  let h := get_body_stats_history m
  ((sortByDateDesc h.1).head?, h.2)

/-- The template document `add_template` builds before storing:
`json.dumps(food_data)` kept as the dict itself, denormalized
`total_calories`/`total_protein` via `dict.get(..., 0)`. -/
def templateDocOf (name : String) (food_data : FoodDoc) (default_type uid : String) :
    TemplateDoc :=
  { name := name, food_items_json := food_data
    total_calories := food_data.calories.getD 0
    total_protein := food_data.protein.getD 0
    default_type := default_type, uid := uid }

/-- Embedding of `DataManager.add_template`:  builds the template payload
(with a fresh `uuid.uuid4()` uid) and stores it in the active backend. -/
def add_template (name : String) (food_data : FoodDoc) (default_type : String)
    (uid docId : String) (m : DataManager) : DataManager × Nat :=
  let doc : TemplateDoc := templateDocOf name food_data default_type uid
  if m.use_firestore then
    ({ m with db := { m.db with templates := m.db.templates ++ [(docId, doc)] } }, 1)
  else
    ({ m with sq := { m.sq with
        templates := m.sq.templates ++ [{ id := m.sq.next_template_id, data := doc }]
        next_template_id := m.sq.next_template_id + 1 } }, 0)

/-- Embedding of `DataManager.get_templates`: Firestore streams the
collection, SQLite runs `SELECT * FROM templates`; both return the stored
template dicts in storage order (the `id` key the read paths add is
omitted, as elsewhere). -/
def get_templates (m : DataManager) : List TemplateDoc × Nat :=
  if m.use_firestore then (m.db.templates.map (fun kv => kv.2), 1)
  else (m.sq.templates.map (fun r => r.data), 0)

/-- SQLite branch of `delete_template`: the same
`try: DELETE ... WHERE id=int(t_id)` / bare `except:` /
`DELETE ... WHERE uid=t_id` shape as `delete_food_log`, with the same
per-statement storage-fault oracles. -/
def delete_templateS (t_id : String) (fault1 fault2 : Bool) (s : SqliteDB) :
    Except String SqliteDB :=
  let attempt : Except String SqliteDB :=
    if fault1 then Except.error "sqlite3.OperationalError"
    else
      match pyInt? t_id with
      | some n => Except.ok { s with templates := s.templates.filter (fun r => r.id != n) }
      | none => Except.error "ValueError"
  match attempt with
  | Except.ok s2 => Except.ok s2
  | Except.error _ =>
    if fault2 then Except.error "sqlite3.OperationalError"
    else Except.ok { s with templates := s.templates.filter (fun r => r.data.uid != t_id) }

/-- Embedding of `DataManager.delete_template`. -/
def delete_template (t_id : String) (fault1 fault2 : Bool) (m : DataManager) :
    Except String (DataManager × Nat) :=
  if m.use_firestore then
    Except.ok ({ m with db := { m.db with
      templates := m.db.templates.filter (fun kv => kv.1 != t_id) } }, 1)
  else
    (delete_templateS t_id fault1 fault2 m.sq).map (fun s => ({ m with sq := s }, 0))

/-- Tables created by `DataManager._init_sqlite` (its four
`CREATE TABLE IF NOT EXISTS` statements, in order). -/
def sqliteTables : List String := ["users", "food_logs", "body_stats", "templates"]

/-- Columns of the `body_stats` table, from its `CREATE TABLE`. -/
def bodyStatsColumns : List String := ["id", "date", "weight_kg", "bf_percent"]

/-- Columns written by the `INSERT INTO body_stats` of `add_body_stat`. -/
def addBodyStatColumns : List String := ["date", "weight_kg", "bf_percent"]

/-- The methods defined on the `DataManager` class, in source order. -/
def dataManagerMethods : List String :=
  ["__init__", "_init_sqlite", "get_user_profile", "update_user_profile",
   "add_food_log", "delete_food_log", "delete_day_logs", "get_logs_for_date",
   "get_logs_history", "add_body_stat", "get_body_stats_history",
   "get_latest_body_stat", "add_template", "get_templates", "delete_template"]

/-- Character-list test that `pat` occurs as a prefix of `s`. -/
def startsWithChars : List Char → List Char → Bool
  | [], _ => true
  | _ :: _, [] => false
  | p :: ps, c :: cs => p == c && startsWithChars ps cs

/-- Character-list test that `pat` occurs contiguously anywhere in `s`. -/
def containsChars (pat : List Char) : List Char → Bool
  | [] => pat.isEmpty
  | c :: cs => startsWithChars pat (c :: cs) || containsChars pat cs

/-- Remote-call count of a fallible facade call (`0` when it raised before
reaching any store). -/
def netOps (r : Except String (DataManager × Nat)) : Nat :=
  match r with
  | Except.ok x => x.2
  | Except.error _ => 0

/-- Remote store left by a fallible facade call (the given starting remote
store when the call raised, since an uncommitted transaction changes
nothing). -/
def remoteOf (r : Except String (DataManager × Nat)) (fallback : FirestoreDB) :
    FirestoreDB :=
  match r with
  | Except.ok x => x.1.db
  | Except.error _ => fallback

/-- The uid column/field of every stored food log, in storage order
(`none` for a Firestore document whose dict lacks a `uid` key). -/
def foodLogUids (m : DataManager) : List (Option String) :=
  if m.use_firestore then m.db.food_logs.map (fun kv => kv.2.uid)
  else m.sq.food_logs.map (fun r => some r.uid)

/-- The uid of every stored template, in storage order. -/
def templateUids (m : DataManager) : List String :=
  if m.use_firestore then m.db.templates.map (fun kv => kv.2.uid)
  else m.sq.templates.map (fun r => r.data.uid)

/-- Number of stored profile instances in the active backend. -/
def profileCount (m : DataManager) : Nat :=
  if m.use_firestore then (if m.db.profile.isSome then 1 else 0)
  else m.sq.users.length

/-- Boolean check that a body-stat list is ordered by date ascending. -/
def sortedByDateAscB : List BodyStatData → Bool
  | [] => true
  | [_] => true
  | a :: b :: t => strLe a.date b.date && sortedByDateAscB (b :: t)

/-- Boolean check that a body-stat list is ordered by date descending. -/
def sortedByDateDescB : List BodyStatData → Bool
  | [] => true
  | [_] => true
  | a :: b :: t => strLe b.date a.date && sortedByDateDescB (b :: t)

/-- The SQLite state left by a fallible facade call (the given starting
state when the call raised, since the uncommitted transaction is rolled
back on `conn.close()`). -/
def localOf (r : Except String (DataManager × Nat)) (fallback : SqliteDB) : SqliteDB :=
  match r with
  | Except.ok x => x.1.sq
  | Except.error _ => fallback

/-- The `food_logs` row produced by the `INSERT` of `add_food_log` for a
complete payload `d`, client uid `uid` and rowid `i`. -/
def rowOfData (d : FoodLogData) (uid : String) (i : Int) : FoodRow :=
  { id := i
    date := d.date
    food_name := d.food_name
    amount_desc := d.amount_desc
    calories := d.calories
    protein := d.protein
    carbs := d.carbs
    fats := d.fats
    fiber := d.fiber
    sugar := d.sugar
    sodium := d.sodium
    saturated_fat := d.saturated_fat
    vitamin_a := d.vitamin_a
    vitamin_c := d.vitamin_c
    vitamin_d := d.vitamin_d
    calcium := d.calcium
    iron := d.iron
    potassium := d.potassium
    magnesium := d.magnesium
    zinc := d.zinc
    nutrients := none
    note := d.note
    uid := uid }

/-- The dict a complete payload becomes once `add_food_log` has assigned
its client uid: this is what the matching read returns. -/
def writtenDoc (d : FoodLogData) (uid : String) : FoodDoc :=
  { toPayload d with uid := some uid }

/-- A concrete complete food log used as test input. -/
def demoLog : FoodLogData :=
  { date := "2024-05-04", food_name := "Omelette", amount_desc := "3 eggs"
    calories := 320, protein := 20, carbs := 2, fats := 25, fiber := 0
    sugar := 1, sodium := 400, saturated_fat := 8, vitamin_a := 160
    vitamin_c := 0, vitamin_d := 4, calcium := 80, iron := 3
    potassium := 200, magnesium := 16, zinc := 2, note := "" }

/-- A concrete profile dict used as test input. -/
def demoProfile : ProfileData :=
  { height_cm := 175, weight_kg := 70, bf_percent := 20
    activity_level := "Sedentary", goal := "Maintain / Recomp"
    diet_type := "Balanced", target_calories := 2000, target_protein := 150
    target_carbs := 200, target_fats := 60 }

/-- A `DataManager` constructed with no Firestore library/credentials:
local-only SQLite mode. -/
def dmLocal : DataManager := initDM false false false

/-- A `DataManager` constructed with the Firestore library, credentials and
a successful client: Firestore mode. -/
def dmRemote : DataManager := initDM true true true

/-- A food-log dict with every `INSERT`-required key present except
`calories`. -/
def payloadNoCalories : FoodDoc :=
  { date := some "2024-01-02", food_name := some "Toast"
    amount_desc := some "1 slice", protein := some 5, carbs := some 20
    fats := some 2, fiber := some 1, sugar := some 1, sodium := some 100
    saturated_fat := some 1, vitamin_a := some 0, vitamin_c := some 0
    vitamin_d := some 0, calcium := some 10, iron := some 1
    potassium := some 50, magnesium := some 5, zinc := some 1
    note := some "" }

/-- A food-log dict with the eight defaultable keys present but every
micronutrient key absent. -/
def payloadNoVitA : FoodDoc :=
  { date := some "2024-01-03", food_name := some "Tea"
    amount_desc := some "1 cup", calories := some 2, protein := some 0
    carbs := some 0, fats := some 0, fiber := some 0, sugar := some 0
    sodium := some 1, saturated_fat := some 0, note := some "" }

/-- Firestore-mode manager holding the one stored `payloadNoVitA`
document (the state `add_food_log` produces from `dmRemote`). -/
def dmRemoteWithTea : DataManager :=
  { dmRemote with db := { dmRemote.db with
      food_logs := [("doc-tea", { payloadNoVitA with uid := some "u-tea" })] } }

/-- A concrete stored food-log row with rowid 7 and uid `"u7"`. -/
def eggRow : FoodRow :=
  { id := 7, date := "2024-01-01", food_name := "Egg", amount_desc := "1"
    calories := 70, protein := 6, carbs := 0, fats := 5, fiber := 0
    sugar := 0, sodium := 60, saturated_fat := 2, vitamin_a := 80
    vitamin_c := 0, vitamin_d := 1, calcium := 20, iron := 1
    potassium := 60, magnesium := 5, zinc := 1, nutrients := none
    note := "", uid := "u7" }

/-- Local-mode manager holding `eggRow` as its only food log. -/
def dmEgg : DataManager :=
  { dmLocal with sq := { emptySqlite with food_logs := [eggRow], next_food_id := 8 } }

/-- A concrete body stat dated February 2024. -/
def statFeb : BodyStatData := { date := "2024-02-01", weight_kg := 80, bf_percent := 20 }

/-- A concrete body stat dated January 2024. -/
def statJan : BodyStatData := { date := "2024-01-01", weight_kg := 81, bf_percent := 21 }

/-- Firestore-mode manager after adding `statFeb` then `statJan` through
`add_body_stat`. -/
def dmRemoteStats : DataManager :=
  (add_body_stat statJan "doc-b2" (add_body_stat statFeb "doc-b1" dmRemote).1).1

/-- Local-mode manager after adding `statFeb` then `statJan` through
`add_body_stat`. -/
def dmLocalStats : DataManager :=
  (add_body_stat statJan "x2" (add_body_stat statFeb "x1" dmLocal).1).1

lemma charListLe_total : ∀ a b : List Char, charListLe a b = true ∨ charListLe b a = true := by
  intro a
  induction a with
  | nil => intro b; left; rfl
  | cons x xs ih =>
    intro b
    cases b with
    | nil => right; rfl
    | cons y ys =>
      by_cases hxy : x < y
      · left; simp [charListLe, hxy]
      · by_cases hyx : y < x
        · right; simp [charListLe, hyx]
        · rcases ih ys with h | h
          · left; simp [charListLe, hxy, hyx, h]
          · right; simp [charListLe, hxy, hyx, h]

lemma charListLe_trans : ∀ a b c : List Char,
    charListLe a b = true → charListLe b c = true → charListLe a c = true := by
  intro a
  induction a with
  | nil => intro b c _ _; rfl
  | cons x xs ih =>
    intro b c h1 h2
    cases b with
    | nil => simp [charListLe] at h1
    | cons y ys =>
      cases c with
      | nil => simp [charListLe] at h2
      | cons z zs =>
        by_cases hxy : x < y
        · by_cases hyz : y < z
          · simp [charListLe, lt_trans hxy hyz]
          · by_cases hzy : z < y
            · simp [charListLe, hyz, hzy] at h2
            · have hyzeq : y = z := le_antisymm (not_lt.mp hzy) (not_lt.mp hyz)
              subst hyzeq
              simp [charListLe, hxy]
        · by_cases hyx : y < x
          · simp [charListLe, hxy, hyx] at h1
          · have hxyeq : x = y := le_antisymm (not_lt.mp hyx) (not_lt.mp hxy)
            subst hxyeq
            simp only [charListLe, if_neg hxy, if_neg hyx] at h1
            by_cases hyz : x < z
            · simp [charListLe, hyz]
            · by_cases hzy : z < x
              · simp [charListLe, hyz, hzy] at h2
              · simp only [charListLe, if_neg hyz, if_neg hzy] at h2 ⊢
                exact ih ys zs h1 h2

lemma strLe_total (a b : String) : strLe a b = true ∨ strLe b a = true :=
  charListLe_total a.data b.data

lemma strLe_trans {a b c : String} (h1 : strLe a b = true) (h2 : strLe b c = true) :
    strLe a c = true :=
  charListLe_trans a.data b.data c.data h1 h2

lemma strLe_of_not_le {a b : String} (h : ¬ strLe a b = true) : strLe b a = true :=
  (strLe_total a b).resolve_left h

lemma sortedByDateAscB_insert (x : BodyStatData) :
    ∀ l, sortedByDateAscB l = true → sortedByDateAscB (insertByDateAsc x l) = true := by
  intro l
  induction l with
  | nil => intro _; rfl
  | cons y t ih =>
    intro h
    by_cases hxy : strLe x.date y.date = true
    · simp only [insertByDateAsc, if_pos hxy]
      simp [sortedByDateAscB, hxy, h]
    · simp only [insertByDateAsc, if_neg hxy]
      have hyx := strLe_of_not_le hxy
      cases t with
      | nil => simp [insertByDateAsc, sortedByDateAscB, hyx]
      | cons z t2 =>
        simp only [sortedByDateAscB, Bool.and_eq_true] at h
        by_cases hxz : strLe x.date z.date = true
        · simp only [insertByDateAsc, if_pos hxz]
          simp [sortedByDateAscB, hyx, hxz, h.2]
        · simp only [insertByDateAsc, if_neg hxz]
          have hrec := ih h.2
          simp only [insertByDateAsc, if_neg hxz] at hrec
          simp [sortedByDateAscB, h.1, hrec]

lemma sortedByDateAscB_sort (l : List BodyStatData) :
    sortedByDateAscB (sortByDateAsc l) = true := by
  induction l with
  | nil => rfl
  | cons x t ih => exact sortedByDateAscB_insert x (sortByDateAsc t) ih

lemma sortedByDateDescB_insert (x : BodyStatData) :
    ∀ l, sortedByDateDescB l = true → sortedByDateDescB (insertByDateDesc x l) = true := by
  intro l
  induction l with
  | nil => intro _; rfl
  | cons y t ih =>
    intro h
    by_cases hxy : strLe y.date x.date = true
    · simp only [insertByDateDesc, if_pos hxy]
      simp [sortedByDateDescB, hxy, h]
    · simp only [insertByDateDesc, if_neg hxy]
      have hyx := strLe_of_not_le hxy
      cases t with
      | nil => simp [insertByDateDesc, sortedByDateDescB, hyx]
      | cons z t2 =>
        simp only [sortedByDateDescB, Bool.and_eq_true] at h
        by_cases hxz : strLe z.date x.date = true
        · simp only [insertByDateDesc, if_pos hxz]
          simp [sortedByDateDescB, hyx, hxz, h.2]
        · simp only [insertByDateDesc, if_neg hxz]
          have hrec := ih h.2
          simp only [insertByDateDesc, if_neg hxz] at hrec
          simp [sortedByDateDescB, h.1, hrec]

lemma sortedByDateDescB_sort (l : List BodyStatData) :
    sortedByDateDescB (sortByDateDesc l) = true := by
  induction l with
  | nil => rfl
  | cons x t ih => exact sortedByDateDescB_insert x (sortByDateDesc t) ih

lemma mem_insertByDateAsc {a x : BodyStatData} :
    ∀ {l}, a ∈ insertByDateAsc x l ↔ a = x ∨ a ∈ l := by
  intro l
  induction l with
  | nil => simp [insertByDateAsc]
  | cons y t ih =>
    by_cases hxy : strLe x.date y.date = true
    · simp only [insertByDateAsc, if_pos hxy]
      simp
    · simp only [insertByDateAsc, if_neg hxy]
      simp only [List.mem_cons, ih]
      tauto

lemma mem_sortByDateAsc {a : BodyStatData} :
    ∀ {l}, a ∈ sortByDateAsc l ↔ a ∈ l := by
  intro l
  induction l with
  | nil => simp [sortByDateAsc]
  | cons x t ih =>
    simp only [sortByDateAsc, mem_insertByDateAsc, ih, List.mem_cons]

lemma mem_insertByDateDesc {a x : BodyStatData} :
    ∀ {l}, a ∈ insertByDateDesc x l ↔ a = x ∨ a ∈ l := by
  intro l
  induction l with
  | nil => simp [insertByDateDesc]
  | cons y t ih =>
    by_cases hxy : strLe y.date x.date = true
    · simp only [insertByDateDesc, if_pos hxy]
      simp
    · simp only [insertByDateDesc, if_neg hxy]
      simp only [List.mem_cons, ih]
      tauto

lemma mem_sortByDateDesc {a : BodyStatData} :
    ∀ {l}, a ∈ sortByDateDesc l ↔ a ∈ l := by
  intro l
  induction l with
  | nil => simp [sortByDateDesc]
  | cons x t ih =>
    simp only [sortByDateDesc, mem_insertByDateDesc, ih, List.mem_cons]

lemma sortedByDateDescB_head_max {e : BodyStatData} :
    ∀ {t}, sortedByDateDescB (e :: t) = true →
      ∀ x ∈ t, strLe x.date e.date = true := by
  intro t
  induction t generalizing e with
  | nil => intro _ x hx; simp at hx
  | cons z t2 ih =>
    intro h x hx
    simp only [sortedByDateDescB, Bool.and_eq_true] at h
    rcases List.mem_cons.mp hx with rfl | hx2
    · exact h.1
    · exact strLe_trans (ih h.2 x hx2) h.1

lemma insertByDateDesc_ne_nil {x : BodyStatData} {l : List BodyStatData} :
    insertByDateDesc x l ≠ [] := by
  cases l with
  | nil => simp [insertByDateDesc]
  | cons y t =>
    by_cases hxy : strLe y.date x.date = true
    · simp [insertByDateDesc, if_pos hxy]
    · simp [insertByDateDesc, if_neg hxy]

lemma sortByDateDesc_eq_nil {l : List BodyStatData} :
    sortByDateDesc l = [] ↔ l = [] := by
  cases l with
  | nil => simp [sortByDateDesc]
  | cons x t =>
    simp only [sortByDateDesc]
    constructor
    · intro h; exact absurd h insertByDateDesc_ne_nil
    · intro h; cases h

lemma initDM_sq (a b c : Bool) : (initDM a b c).sq = emptySqlite := by
  cases a <;> cases b <;> cases c <;> rfl

lemma initDM_db (a b c : Bool) : (initDM a b c).db = emptyFS := by
  cases a <;> cases b <;> cases c <;> rfl

lemma initDM_use_firestore (a b c : Bool) :
    (initDM a b c).use_firestore = (a && b && c) := by
  cases a <;> cases b <;> cases c <;> rfl

lemma foldl_profile_aux (m0 : DataManager) (h0 : m0.sq.users = [])
    (hp : m0.db.profile = none) (ds : List ProfileData) :
    (ds.foldl (fun m d => (update_user_profile d m).1) m0).use_firestore = m0.use_firestore
  ∧ (ds.foldl (fun m d => (update_user_profile d m).1) m0).db.profile
      = (if m0.use_firestore then ds.getLast? else none)
  ∧ (ds.foldl (fun m d => (update_user_profile d m).1) m0).sq.users
      = (if m0.use_firestore then [] else
          match ds.getLast? with
          | none => ([] : List ProfileRow)
          | some d => [{ id := 1, data := d }]) := by
  induction ds using List.reverseRecOn with
  | nil =>
    refine ⟨rfl, ?_, ?_⟩ <;> cases hm : m0.use_firestore <;> simp [hm, hp, h0]
  | append_singleton l a ih =>
    obtain ⟨ih1, ih2, ih3⟩ := ih
    rw [List.foldl_append, List.foldl_cons, List.foldl_nil]
    generalize hM : List.foldl (fun m d => (update_user_profile d m).1) m0 l = M at ih1 ih2 ih3
    cases hm : m0.use_firestore with
    | true =>
      rw [hm] at ih1 ih2 ih3
      simp only [if_true] at ih2 ih3
      simp [update_user_profile, ih1, ih3, List.getLast?_concat]
    | false =>
      rw [hm] at ih1 ih2 ih3
      simp only [Bool.false_eq_true, if_false] at ih2 ih3
      rcases hl : l.getLast? with _ | d <;> rw [hl] at ih3
      · simp [update_user_profile, update_user_profileS, ih1, ih2, ih3,
          List.getLast?_concat]
      · simp [update_user_profile, update_user_profileS, ih1, ih2, ih3,
          List.getLast?_concat]

lemma charListLe_refl : ∀ a : List Char, charListLe a a = true := by
  intro a
  induction a with
  | nil => rfl
  | cons x xs ih => simp [charListLe, lt_irrefl, ih]

lemma strLe_refl (a : String) : strLe a a = true := charListLe_refl a.data

lemma add_food_logS_payload (d : FoodLogData) (uid : String) (s : SqliteDB) :
    add_food_logS { toPayload d with uid := some uid } s =
      Except.ok { s with
        food_logs := s.food_logs ++ [rowOfData d uid s.next_food_id]
        next_food_id := s.next_food_id + 1 } := rfl

lemma add_food_log_local (d : FoodLogData) (uid docId : String) (m : DataManager)
    (hm : m.use_firestore = false) :
    add_food_log (toPayload d) uid docId m =
      Except.ok ({ m with sq := { m.sq with
        food_logs := m.sq.food_logs ++ [rowOfData d uid m.sq.next_food_id]
        next_food_id := m.sq.next_food_id + 1 } }, 0) := by
  simp [add_food_log, hm, add_food_logS_payload, Except.map]

lemma add_food_log_remote (d : FoodLogData) (uid docId : String) (m : DataManager)
    (hm : m.use_firestore = true) :
    add_food_log (toPayload d) uid docId m =
      Except.ok ({ m with db := { m.db with
        food_logs := m.db.food_logs ++ [(docId, writtenDoc d uid)] } }, 1) := by
  simp [add_food_log, hm, writtenDoc]

lemma applyDefaults_writtenDoc (d : FoodLogData) (uid : String) :
    applyDefaults (writtenDoc d uid) = writtenDoc d uid := rfl

lemma find?_update_list (pd : ProfileData) :
    ∀ l : List ProfileRow, l.any (fun r => r.id == 1) = true →
      (l.map (fun r => if r.id == 1 then ({ id := 1, data := pd } : ProfileRow) else r)).find?
          (fun r => r.id == 1) = some { id := 1, data := pd } := by
  intro l
  induction l with
  | nil => intro h; simp at h
  | cons r t ih =>
    intro h
    by_cases hr : (r.id == 1) = true
    · rw [List.map_cons, if_pos hr]
      rfl
    · have ht : t.any (fun r => r.id == 1) = true := by
        simpa [List.any_cons, hr] using h
      have hb : (r.id == 1) = false := by simpa using hr
      rw [List.map_cons, if_neg hr, List.find?_cons, hb]
      exact ih ht

lemma find?_append_one (pd : ProfileData) :
    ∀ l : List ProfileRow, l.any (fun r => r.id == 1) = false →
      (l ++ [({ id := 1, data := pd } : ProfileRow)]).find? (fun r => r.id == 1)
        = some { id := 1, data := pd } := by
  intro l
  induction l with
  | nil => intro _; rfl
  | cons r t ih =>
    intro h
    simp only [List.any_cons, Bool.or_eq_false_iff] at h
    rw [List.cons_append, List.find?_cons, h.1]
    exact ih h.2

lemma find?_after_updateS (pd : ProfileData) (s : SqliteDB) :
    (update_user_profileS pd s).users.find? (fun r => r.id == 1)
      = some { id := 1, data := pd } := by
  unfold update_user_profileS
  by_cases h : s.users.any (fun r => r.id == 1) = true
  · rw [if_pos h]
    exact find?_update_list pd s.users h
  · rw [if_neg h]
    have h2 : s.users.any (fun r => r.id == 1) = false := by simpa using h
    exact find?_append_one pd s.users h2

lemma get_after_update (pd : ProfileData) (m : DataManager) :
    (get_user_profile ((update_user_profile pd m).1)).1 = some pd := by
  cases hm : m.use_firestore with
  | true => simp [update_user_profile, get_user_profile, hm]
  | false => simp [update_user_profile, get_user_profile, hm, find?_after_updateS]

lemma delete_food_logS_frame (lid : String) (f1 f2 : Bool) (s s2 : SqliteDB)
    (h : delete_food_logS lid f1 f2 s = Except.ok s2) :
    s2.users = s.users ∧ s2.body_stats = s.body_stats ∧ s2.templates = s.templates := by
  cases hf1 : f1 <;> cases hf2 : f2 <;> rcases hp : pyInt? lid with _ | n <;>
      simp [delete_food_logS, hf1, hf2, hp] at h <;>
    (subst h; exact ⟨rfl, rfl, rfl⟩)

lemma delete_templateS_frame (tid : String) (g1 g2 : Bool) (s s2 : SqliteDB)
    (h : delete_templateS tid g1 g2 s = Except.ok s2) :
    s2.users = s.users ∧ s2.food_logs = s.food_logs ∧ s2.body_stats = s.body_stats := by
  cases hg1 : g1 <;> cases hg2 : g2 <;> rcases hp : pyInt? tid with _ | n <;>
      simp [delete_templateS, hg1, hg2, hp] at h <;>
    (subst h; exact ⟨rfl, rfl, rfl⟩)

lemma delete_food_log_no_fault (lid : String) (m : DataManager)
    (hm : m.use_firestore = false) :
    ∃ m2, delete_food_log lid false false m = Except.ok (m2, 0) := by
  rcases hp : pyInt? lid with _ | n
  · exact ⟨_, by simp [delete_food_log, hm, delete_food_logS, hp, Except.map]; rfl⟩
  · exact ⟨_, by simp [delete_food_log, hm, delete_food_logS, hp, Except.map]; rfl⟩

lemma delete_template_no_fault (tid : String) (m : DataManager)
    (hm : m.use_firestore = false) :
    ∃ m2, delete_template tid false false m = Except.ok (m2, 0) := by
  rcases hp : pyInt? tid with _ | n
  · exact ⟨_, by simp [delete_template, hm, delete_templateS, hp, Except.map]; rfl⟩
  · exact ⟨_, by simp [delete_template, hm, delete_templateS, hp, Except.map]; rfl⟩

/-- Claim C1, counterexample: the schema `_init_sqlite` creates consists of
exactly the four entity tables; there is no `outbox` table, so no facade
mutation can append an OutboxRecord in the same transaction (or at all). -/
theorem c1_counterexample_no_outbox :
    sqliteTables = ["users", "food_logs", "body_stats", "templates"]
    ∧ sqliteTables.contains "outbox" = false :=
  ⟨rfl, rfl⟩

/-- Claim C1 (amended): every successful Repository Facade mutation writes
only the targeted entity's table/collection of the active backend — for
each of the seven mutations all other entity tables of both backends are
untouched — and the local schema has no outbox table, so no OutboxRecord
is ever created.  For the two fallible deletes the frame is stated on the
resulting state via `localOf`/`remoteOf` (unchanged by definition when the
call raises). -/
theorem c1_amended_writes_only_entity_table
    (d : FoodLogData) (uid docId : String) (m : DataManager)
    (pd : ProfileData) (bs : BodyStatData) (docId2 : String)
    (nm : String) (fd : FoodDoc) (dt uid2 docId3 : String)
    (dstr lid : String) (f1 f2 : Bool) (tid : String) (g1 g2 : Bool) :
    (∃ m2 n, add_food_log (toPayload d) uid docId m = Except.ok (m2, n)
      ∧ m2.sq.users = m.sq.users
      ∧ m2.sq.body_stats = m.sq.body_stats
      ∧ m2.sq.templates = m.sq.templates
      ∧ m2.db.profile = m.db.profile
      ∧ m2.db.body_stats = m.db.body_stats
      ∧ m2.db.templates = m.db.templates)
  ∧ (((update_user_profile pd m).1).sq.food_logs = m.sq.food_logs
      ∧ ((update_user_profile pd m).1).sq.body_stats = m.sq.body_stats
      ∧ ((update_user_profile pd m).1).sq.templates = m.sq.templates
      ∧ ((update_user_profile pd m).1).db.food_logs = m.db.food_logs
      ∧ ((update_user_profile pd m).1).db.body_stats = m.db.body_stats
      ∧ ((update_user_profile pd m).1).db.templates = m.db.templates)
  ∧ (((add_body_stat bs docId2 m).1).sq.users = m.sq.users
      ∧ ((add_body_stat bs docId2 m).1).sq.food_logs = m.sq.food_logs
      ∧ ((add_body_stat bs docId2 m).1).sq.templates = m.sq.templates
      ∧ ((add_body_stat bs docId2 m).1).db.profile = m.db.profile
      ∧ ((add_body_stat bs docId2 m).1).db.food_logs = m.db.food_logs
      ∧ ((add_body_stat bs docId2 m).1).db.templates = m.db.templates)
  ∧ (((add_template nm fd dt uid2 docId3 m).1).sq.users = m.sq.users
      ∧ ((add_template nm fd dt uid2 docId3 m).1).sq.food_logs = m.sq.food_logs
      ∧ ((add_template nm fd dt uid2 docId3 m).1).sq.body_stats = m.sq.body_stats
      ∧ ((add_template nm fd dt uid2 docId3 m).1).db.profile = m.db.profile
      ∧ ((add_template nm fd dt uid2 docId3 m).1).db.food_logs = m.db.food_logs
      ∧ ((add_template nm fd dt uid2 docId3 m).1).db.body_stats = m.db.body_stats)
  ∧ (((delete_day_logs dstr m).1).sq.users = m.sq.users
      ∧ ((delete_day_logs dstr m).1).sq.body_stats = m.sq.body_stats
      ∧ ((delete_day_logs dstr m).1).sq.templates = m.sq.templates
      ∧ ((delete_day_logs dstr m).1).db.profile = m.db.profile
      ∧ ((delete_day_logs dstr m).1).db.body_stats = m.db.body_stats
      ∧ ((delete_day_logs dstr m).1).db.templates = m.db.templates)
  ∧ ((localOf (delete_food_log lid f1 f2 m) m.sq).users = m.sq.users
      ∧ (localOf (delete_food_log lid f1 f2 m) m.sq).body_stats = m.sq.body_stats
      ∧ (localOf (delete_food_log lid f1 f2 m) m.sq).templates = m.sq.templates
      ∧ (remoteOf (delete_food_log lid f1 f2 m) m.db).profile = m.db.profile
      ∧ (remoteOf (delete_food_log lid f1 f2 m) m.db).body_stats = m.db.body_stats
      ∧ (remoteOf (delete_food_log lid f1 f2 m) m.db).templates = m.db.templates)
  ∧ ((localOf (delete_template tid g1 g2 m) m.sq).users = m.sq.users
      ∧ (localOf (delete_template tid g1 g2 m) m.sq).food_logs = m.sq.food_logs
      ∧ (localOf (delete_template tid g1 g2 m) m.sq).body_stats = m.sq.body_stats
      ∧ (remoteOf (delete_template tid g1 g2 m) m.db).profile = m.db.profile
      ∧ (remoteOf (delete_template tid g1 g2 m) m.db).food_logs = m.db.food_logs
      ∧ (remoteOf (delete_template tid g1 g2 m) m.db).body_stats = m.db.body_stats)
  ∧ sqliteTables.contains "outbox" = false := by
  refine ⟨?_, ?_, ?_, ?_, ?_, ?_, ?_, rfl⟩
  · cases hm : m.use_firestore with
    | true => exact ⟨_, _, add_food_log_remote d uid docId m hm, rfl, rfl, rfl, rfl, rfl, rfl⟩
    | false => exact ⟨_, _, add_food_log_local d uid docId m hm, rfl, rfl, rfl, rfl, rfl, rfl⟩
  · cases hm : m.use_firestore with
    | true => simp [update_user_profile, hm]
    | false =>
      by_cases hx : m.sq.users.any (fun r => r.id == 1) = true <;>
        simp [update_user_profile, update_user_profileS, hm, hx]
  · cases hm : m.use_firestore <;> simp [add_body_stat, hm]
  · cases hm : m.use_firestore <;> simp [add_template, hm]
  · cases hm : m.use_firestore <;> simp [delete_day_logs, hm]
  · cases hm : m.use_firestore with
    | true => simp [delete_food_log, hm, localOf, remoteOf]
    | false =>
      rcases hdf : delete_food_logS lid f1 f2 m.sq with e | s2
      · simp [delete_food_log, hm, hdf, localOf, remoteOf, Except.map]
      · obtain ⟨hu, hb, ht⟩ := delete_food_logS_frame lid f1 f2 m.sq s2 hdf
        simp [delete_food_log, hm, hdf, localOf, remoteOf, Except.map, hu, hb, ht]
  · cases hm : m.use_firestore with
    | true => simp [delete_template, hm, localOf, remoteOf]
    | false =>
      rcases hdt : delete_templateS tid g1 g2 m.sq with e | s2
      · simp [delete_template, hm, hdt, localOf, remoteOf, Except.map]
      · obtain ⟨hu, hf, hb⟩ := delete_templateS_frame tid g1 g2 m.sq s2 hdt
        simp [delete_template, hm, hdt, localOf, remoteOf, Except.map, hu, hf, hb]

/-- Claim C2, counterexample: with Firestore configured, `add_food_log`
performs one remote-store call (not zero) and leaves the local SQLite
store unmutated — the write goes to the remote store instead. -/
theorem c2_counterexample_remote_mode_network :
    netOps (add_food_log (toPayload demoLog) "uid-1" "doc-1" dmRemote) = 1
  ∧ (1 : Nat) ≠ 0
  ∧ localOf (add_food_log (toPayload demoLog) "uid-1" "doc-1" dmRemote) dmRemote.sq
      = dmRemote.sq := by
  refine ⟨rfl, by decide, rfl⟩

/-- Claim C2 (amended): when `use_firestore` is false, every Repository
Facade mutation (`add_food_log`, `update_user_profile`, `add_body_stat`,
`add_template`, `delete_food_log`, `delete_template`, `delete_day_logs`)
mutates only the local SQLite store and performs no remote-store call;
with Firestore configured these methods write to the remote store
instead. -/
theorem c2_amended_local_mode_no_network
    (m : DataManager) (hm : m.use_firestore = false)
    (pd : ProfileData) (p : FoodDoc) (uid docId : String)
    (bs : BodyStatData) (docId2 : String)
    (nm : String) (fd : FoodDoc) (dt uid2 docId3 : String)
    (dstr lid : String) (f1 f2 : Bool) (tid : String) (g1 g2 : Bool) :
    (update_user_profile pd m).2 = 0
  ∧ ((update_user_profile pd m).1).db = m.db
  ∧ netOps (add_food_log p uid docId m) = 0
  ∧ remoteOf (add_food_log p uid docId m) m.db = m.db
  ∧ (add_body_stat bs docId2 m).2 = 0
  ∧ ((add_body_stat bs docId2 m).1).db = m.db
  ∧ (add_template nm fd dt uid2 docId3 m).2 = 0
  ∧ ((add_template nm fd dt uid2 docId3 m).1).db = m.db
  ∧ (delete_day_logs dstr m).2 = 0
  ∧ ((delete_day_logs dstr m).1).db = m.db
  ∧ netOps (delete_food_log lid f1 f2 m) = 0
  ∧ remoteOf (delete_food_log lid f1 f2 m) m.db = m.db
  ∧ netOps (delete_template tid g1 g2 m) = 0
  ∧ remoteOf (delete_template tid g1 g2 m) m.db = m.db := by
  refine ⟨?_, ?_, ?_, ?_, ?_, ?_, ?_, ?_, ?_, ?_, ?_, ?_, ?_, ?_⟩
  · simp [update_user_profile, hm]
  · simp [update_user_profile, hm]
  · rcases haf : add_food_logS { p with uid := some uid } m.sq with e | s2 <;>
      simp [netOps, add_food_log, hm, haf, Except.map]
  · rcases haf : add_food_logS { p with uid := some uid } m.sq with e | s2 <;>
      simp [remoteOf, add_food_log, hm, haf, Except.map]
  · simp [add_body_stat, hm]
  · simp [add_body_stat, hm]
  · simp [add_template, hm]
  · simp [add_template, hm]
  · simp [delete_day_logs, hm]
  · simp [delete_day_logs, hm]
  · rcases hdf : delete_food_logS lid f1 f2 m.sq with e | s2 <;>
      simp [netOps, delete_food_log, hm, hdf, Except.map]
  · rcases hdf : delete_food_logS lid f1 f2 m.sq with e | s2 <;>
      simp [remoteOf, delete_food_log, hm, hdf, Except.map]
  · rcases hdt : delete_templateS tid g1 g2 m.sq with e | s2 <;>
      simp [netOps, delete_template, hm, hdt, Except.map]
  · rcases hdt : delete_templateS tid g1 g2 m.sq with e | s2 <;>
      simp [remoteOf, delete_template, hm, hdt, Except.map]

/-- Claim C2 (amended), witness at a concrete local-mode manager. -/
theorem c2_witness_local_mode :
    dmLocal.use_firestore = false
  ∧ netOps (add_food_log (toPayload demoLog) "u" "d" dmLocal) = 0 :=
  ⟨rfl, (c2_amended_local_mode_no_network dmLocal rfl demoProfile (toPayload demoLog)
    "u" "d" statFeb "b" "t" { } "None" "u2" "d2" "2024-05-04" "1" false false
    "1" false false).2.2.1⟩

/-- Claim C3, counterexample: the `DataManager` class defines no sync
method at all (no method name even contains "sync"), so no "sync
invocation" exists that could report an offline status. -/
theorem c3_counterexample_no_sync_method :
    dataManagerMethods =
      ["__init__", "_init_sqlite", "get_user_profile", "update_user_profile",
       "add_food_log", "delete_food_log", "delete_day_logs", "get_logs_for_date",
       "get_logs_history", "add_body_stat", "get_body_stats_history",
       "get_latest_body_stat", "add_template", "get_templates", "delete_template"]
    ∧ dataManagerMethods.all (fun nm => !(containsChars "sync".data nm.data)) = true :=
  ⟨rfl, by decide⟩

/-- Claim C3 (amended): whenever Firestore is unavailable (missing
library, missing credentials, or failing client construction),
construction catches the failure and silently falls back to local SQLite
mode (`use_firestore = false`, fresh local store), and the facade remains
fully functional locally: reads answer from SQLite and writes succeed
with zero remote-store calls.  The code has no sync method, so no sync
invocation can occur in this state. -/
theorem c3_amended_offline_degrades_to_local
    (hasLib hasSecrets clientOk : Bool)
    (h : (hasLib && hasSecrets && clientOk) = false)
    (d : FoodLogData) (uid docId : String) (pd : ProfileData)
    (lid dstr dstr2 dstr3 : String) (bs : BodyStatData) (docId2 : String)
    (nm : String) (fd : FoodDoc) (dt uid2 docId3 tid : String) :
    (initDM hasLib hasSecrets clientOk).use_firestore = false
  ∧ (initDM hasLib hasSecrets clientOk).sq = emptySqlite
  ∧ (initDM hasLib hasSecrets clientOk).connection_error
      = (if hasLib && hasSecrets then some "client construction failed" else none)
  ∧ (get_user_profile (initDM hasLib hasSecrets clientOk)).1 = none
  ∧ (get_user_profile (initDM hasLib hasSecrets clientOk)).2 = 0
  ∧ (update_user_profile pd (initDM hasLib hasSecrets clientOk)).2 = 0
  ∧ (∃ m2, add_food_log (toPayload d) uid docId (initDM hasLib hasSecrets clientOk)
        = Except.ok (m2, 0))
  ∧ (∃ m2, delete_food_log lid false false (initDM hasLib hasSecrets clientOk)
        = Except.ok (m2, 0))
  ∧ (delete_day_logs dstr (initDM hasLib hasSecrets clientOk)).2 = 0
  ∧ (get_logs_for_date dstr2 (initDM hasLib hasSecrets clientOk)).2 = 0
  ∧ (get_logs_history dstr3 (initDM hasLib hasSecrets clientOk)).2 = 0
  ∧ (add_body_stat bs docId2 (initDM hasLib hasSecrets clientOk)).2 = 0
  ∧ (get_body_stats_history (initDM hasLib hasSecrets clientOk)).2 = 0
  ∧ (get_latest_body_stat (initDM hasLib hasSecrets clientOk)).2 = 0
  ∧ (add_template nm fd dt uid2 docId3 (initDM hasLib hasSecrets clientOk)).2 = 0
  ∧ (get_templates (initDM hasLib hasSecrets clientOk)).2 = 0
  ∧ (∃ m2, delete_template tid false false (initDM hasLib hasSecrets clientOk)
        = Except.ok (m2, 0)) := by
  have hmode : (initDM hasLib hasSecrets clientOk).use_firestore = false :=
    (initDM_use_firestore hasLib hasSecrets clientOk).trans h
  refine ⟨hmode, initDM_sq hasLib hasSecrets clientOk, ?_, ?_, ?_, ?_, ?_, ?_, ?_,
    ?_, ?_, ?_, ?_, ?_, ?_, ?_, ?_⟩
  · cases hasLib <;> cases hasSecrets <;> cases clientOk <;>
      simp_all [initDM, tryCreateClient]
  · simp [get_user_profile, hmode, initDM_sq, emptySqlite]
  · simp [get_user_profile, hmode]
  · simp [update_user_profile, hmode]
  · exact ⟨_, add_food_log_local d uid docId _ hmode⟩
  · exact delete_food_log_no_fault lid _ hmode
  · simp [delete_day_logs, hmode]
  · simp [get_logs_for_date, hmode]
  · simp [get_logs_history, hmode]
  · simp [add_body_stat, hmode]
  · simp [get_body_stats_history, hmode]
  · simp [get_latest_body_stat, get_body_stats_history, hmode]
  · simp [add_template, hmode]
  · simp [get_templates, hmode]
  · exact delete_template_no_fault tid _ hmode

/-- Claim C3 (amended), witness at an entirely unconfigured manager. -/
theorem c3_witness_offline :
    ((false && false && false) = false)
  ∧ (initDM false false false).use_firestore = false :=
  ⟨rfl, (c3_amended_offline_degrades_to_local false false false rfl demoLog "u" "d"
    demoProfile "1" "2024-05-04" "2024-05-04" "2020-01-01" statFeb "b" "t"
    { } "None" "u2" "d2" "1").1⟩

/-- Claim C4, counterexample: the `body_stats` table has no `uid` column
and the `INSERT` of `add_body_stat` writes none, so a stored BodyStatEntry
carries no uid. -/
theorem c4_counterexample_body_stat_no_uid :
    bodyStatsColumns = ["id", "date", "weight_kg", "bf_percent"]
  ∧ bodyStatsColumns.contains "uid" = false
  ∧ addBodyStatColumns.contains "uid" = false :=
  ⟨rfl, rfl, rfl⟩

/-- Claim C4 (amended): `add_food_log` and `add_template` do assign a
client-generated uid at creation time, independent of the local auto key:
the stored entity's uid equals the freshly generated one; `add_body_stat`
stores no uid. -/
theorem c4_amended_uid_on_food_and_template
    (d : FoodLogData) (uid docId : String) (m : DataManager)
    (nm : String) (fd : FoodDoc) (dt uid2 docId2 : String) (m2 : DataManager) :
    (∃ m3 n, add_food_log (toPayload d) uid docId m = Except.ok (m3, n)
      ∧ foodLogUids m3 = foodLogUids m ++ [some uid])
  ∧ templateUids (add_template nm fd dt uid2 docId2 m2).1 = templateUids m2 ++ [uid2] := by
  constructor
  · cases hm : m.use_firestore with
    | true =>
      refine ⟨_, _, add_food_log_remote d uid docId m hm, ?_⟩
      simp [foodLogUids, hm, writtenDoc]
    | false =>
      refine ⟨_, _, add_food_log_local d uid docId m hm, ?_⟩
      simp [foodLogUids, hm, rowOfData]
  · cases hm2 : m2.use_firestore with
    | true => simp [add_template, templateDocOf, templateUids, hm2]
    | false => simp [add_template, templateDocOf, templateUids, hm2]

/-- Claim C5: writing an entity and immediately reading it back with the
matching read returns it with every written field unchanged, with no sync
involved: `add_food_log` then `get_logs_for_date` on the written date
yields exactly the previous result plus the written dict (with its fresh
uid); `update_user_profile` then `get_user_profile` returns the written
profile; `add_body_stat` then `get_body_stats_history` contains the
written stat; `add_template` then `get_templates` yields exactly the
previous templates plus the written one. -/
theorem c5_write_readback
    (d : FoodLogData) (uid docId : String) (m : DataManager)
    (pd : ProfileData) (bs : BodyStatData) (docId2 : String)
    (nm : String) (fd : FoodDoc) (dt uid2 tDocId : String) :
    (∃ m2 n, add_food_log (toPayload d) uid docId m = Except.ok (m2, n)
      ∧ (get_logs_for_date d.date m2).1
          = (get_logs_for_date d.date m).1 ++ [writtenDoc d uid])
  ∧ (get_user_profile ((update_user_profile pd m).1)).1 = some pd
  ∧ bs ∈ (get_body_stats_history ((add_body_stat bs docId2 m).1)).1
  ∧ (get_templates ((add_template nm fd dt uid2 tDocId m).1)).1
      = (get_templates m).1 ++ [templateDocOf nm fd dt uid2] := by
  refine ⟨?_, get_after_update pd m, ?_, ?_⟩
  · cases hm : m.use_firestore with
    | true =>
      refine ⟨_, _, add_food_log_remote d uid docId m hm, ?_⟩
      simp [get_logs_for_date, hm, List.filter_append, applyDefaults,
        writtenDoc, toPayload]
    | false =>
      refine ⟨_, _, add_food_log_local d uid docId m hm, ?_⟩
      simp [get_logs_for_date, hm, List.filter_append, rowOfData, rowToDoc,
        writtenDoc, toPayload]
  · cases hm : m.use_firestore with
    | true => simp [add_body_stat, get_body_stats_history, hm]
    | false =>
      simp [add_body_stat, get_body_stats_history, hm, mem_sortByDateAsc,
        bodyRowToData]
  · cases hm : m.use_firestore <;> simp [add_template, get_templates, hm]

/-- Claim C6: the profile is a singleton under all update sequences: after
any sequence of `update_user_profile` calls from a fresh manager,
`get_user_profile` returns the data of the last update (`none` before any
update) and the store holds exactly `min n 1` profile instances. -/
theorem c6_profile_singleton_last_write_wins
    (hasLib hasSecrets clientOk : Bool) (ds : List ProfileData) :
    (get_user_profile (ds.foldl (fun m d => (update_user_profile d m).1)
        (initDM hasLib hasSecrets clientOk))).1 = ds.getLast?
  ∧ profileCount (ds.foldl (fun m d => (update_user_profile d m).1)
        (initDM hasLib hasSecrets clientOk)) = min ds.length 1 := by
  obtain ⟨h1, h2, h3⟩ := foldl_profile_aux (initDM hasLib hasSecrets clientOk)
      (by rw [initDM_sq]; rfl) (by rw [initDM_db]; rfl) ds
  generalize hM : ds.foldl (fun m d => (update_user_profile d m).1)
      (initDM hasLib hasSecrets clientOk) = M at h1 h2 h3 ⊢
  cases hm : (initDM hasLib hasSecrets clientOk).use_firestore with
  | true =>
    rw [hm] at h1 h2 h3
    simp only [if_true] at h2 h3
    refine ⟨by simp [get_user_profile, h1, h2], ?_⟩
    rcases hl : ds.getLast? with _ | d
    · have hnil : ds = [] := List.getLast?_eq_none_iff.mp hl
      subst hnil
      simp [profileCount, h1, h2]
    · have hlen : 1 ≤ ds.length := by
        cases ds with
        | nil => simp at hl
        | cons a t => simp
      simp only [profileCount, h1, if_true, h2, hl, Option.isSome_some]
      omega
  | false =>
    rw [hm] at h1 h2 h3
    simp only [Bool.false_eq_true, if_false] at h2 h3
    rcases hl : ds.getLast? with _ | d <;> rw [hl] at h3
    · have hnil : ds = [] := List.getLast?_eq_none_iff.mp hl
      subst hnil
      exact ⟨by simp [get_user_profile, h1, h3], by simp [profileCount, h1, h3]⟩
    · have hlen : 1 ≤ ds.length := by
        cases ds with
        | nil => simp at hl
        | cons a t => simp
      refine ⟨by simp [get_user_profile, h1, h3, List.find?], ?_⟩
      simp only [profileCount, h1, Bool.false_eq_true, if_false, h3,
        List.length_singleton]
      omega

/-- Claim C7, counterexample: creating a log whose dict lacks the numeric
`calories` key raises `KeyError` on the local path instead of defaulting
to zero, and a Firestore-stored document lacking the `vitamin_a`
micronutrient key is returned by `get_logs_for_date` with the key still
absent rather than zero. -/
theorem c7_counterexample_missing_field :
    add_food_log payloadNoCalories "u-c7" "d-c7" dmLocal
      = Except.error "KeyError: calories"
  ∧ add_food_log payloadNoVitA "u-tea" "doc-tea" dmRemote
      = Except.ok (dmRemoteWithTea, 1)
  ∧ ((get_logs_for_date "2024-01-03" dmRemoteWithTea).1.map
        (fun doc => doc.vitamin_a)) = [none] :=
  ⟨rfl, rfl, rfl⟩

/-- Claim C7 (amended): on the Firestore read path exactly the eight
calorie/macro keys (`calories, protein, carbs, fats, fiber, sugar,
sodium, saturated_fat`) default to 0 when missing, micronutrient keys are
returned as stored (absent stays absent), and local creation requires
every numeric key to be present — a complete dict always succeeds, while a
missing key raises `KeyError` (see the counterexample). -/
theorem c7_amended_partial_defaults
    (p : FoodDoc) (d : FoodLogData) (uid docId : String) (m : DataManager) :
    (applyDefaults p).calories = some (p.calories.getD 0)
  ∧ (applyDefaults p).protein = some (p.protein.getD 0)
  ∧ (applyDefaults p).carbs = some (p.carbs.getD 0)
  ∧ (applyDefaults p).fats = some (p.fats.getD 0)
  ∧ (applyDefaults p).fiber = some (p.fiber.getD 0)
  ∧ (applyDefaults p).sugar = some (p.sugar.getD 0)
  ∧ (applyDefaults p).sodium = some (p.sodium.getD 0)
  ∧ (applyDefaults p).saturated_fat = some (p.saturated_fat.getD 0)
  ∧ (applyDefaults p).vitamin_a = p.vitamin_a
  ∧ (applyDefaults p).vitamin_c = p.vitamin_c
  ∧ (applyDefaults p).vitamin_d = p.vitamin_d
  ∧ (applyDefaults p).calcium = p.calcium
  ∧ (applyDefaults p).iron = p.iron
  ∧ (applyDefaults p).potassium = p.potassium
  ∧ (applyDefaults p).magnesium = p.magnesium
  ∧ (applyDefaults p).zinc = p.zinc
  ∧ (∃ m2 n, add_food_log (toPayload d) uid docId m = Except.ok (m2, n)) := by
  refine ⟨rfl, rfl, rfl, rfl, rfl, rfl, rfl, rfl, rfl, rfl, rfl, rfl, rfl, rfl,
    rfl, rfl, ?_⟩
  cases hm : m.use_firestore with
  | true => exact ⟨_, _, add_food_log_remote d uid docId m hm⟩
  | false => exact ⟨_, _, add_food_log_local d uid docId m hm⟩

/-- Claim C8, code bug: a storage error raised by the first, id-based
`DELETE` of `delete_food_log` is caught by the bare `except:` and silently
converted into the uid-based delete path.  Concretely, deleting rowid 7
while the first `conn.execute` raises returns success without deleting
anything (the uid-based fallback matches no row), instead of propagating
the storage error to the caller. -/
theorem c8_storage_error_swallowed :
    delete_food_log "7" true false dmEgg = Except.ok (dmEgg, 0) := rfl

/-- Claim C9, counterexample: in Firestore mode `get_body_stats_history`
streams documents in storage order with no ordering clause, so after
adding a February stat and then a January stat the returned collection is
not ordered by date ascending. -/
theorem c9_counterexample_firestore_unsorted :
    (get_body_stats_history dmRemoteStats).1 = [statFeb, statJan]
  ∧ sortedByDateAscB (get_body_stats_history dmRemoteStats).1 = false :=
  ⟨rfl, by decide⟩

/-- Claim C9 (amended): in local SQLite mode `get_body_stats_history`
(`SELECT * FROM body_stats ORDER BY date`) returns the collection ordered
by date ascending; the Firestore branch returns stream order instead. -/
theorem c9_amended_local_sorted (m : DataManager) (h : m.use_firestore = false) :
    sortedByDateAscB (get_body_stats_history m).1 = true := by
  simp [get_body_stats_history, h, sortedByDateAscB_sort]

/-- Claim C9 (amended), witness at a concrete local-mode manager with two
out-of-order inserts. -/
theorem c9_witness_local_sorted :
    dmLocalStats.use_firestore = false
  ∧ sortedByDateAscB (get_body_stats_history dmLocalStats).1 = true :=
  ⟨rfl, c9_amended_local_sorted dmLocalStats rfl⟩

/-- Claim C10: `get_latest_body_stat` returns `none` exactly when no body
stats are stored, and otherwise an entry of the history whose date is
maximal (under Python's string comparison) among all stored entries,
regardless of insertion order. -/
theorem c10_latest_is_max_date (m : DataManager) :
    ((get_latest_body_stat m).1 = none → (get_body_stats_history m).1 = [])
  ∧ ∀ e, (get_latest_body_stat m).1 = some e →
      e ∈ (get_body_stats_history m).1
      ∧ ∀ x ∈ (get_body_stats_history m).1, strLe x.date e.date = true := by
  constructor
  · intro h
    have hnil : sortByDateDesc (get_body_stats_history m).1 = [] := by
      simpa [get_latest_body_stat, List.head?_eq_none_iff] using h
    exact sortByDateDesc_eq_nil.mp hnil
  · intro e he
    rcases hsort : sortByDateDesc (get_body_stats_history m).1 with _ | ⟨y, t⟩
    · simp [get_latest_body_stat, hsort] at he
    · have hey : y = e := by
        simpa [get_latest_body_stat, hsort] using he
      subst hey
      constructor
      · exact mem_sortByDateDesc.mp (hsort ▸ List.mem_cons_self y t)
      · intro x hx
        have hx2 : x ∈ sortByDateDesc (get_body_stats_history m).1 :=
          mem_sortByDateDesc.mpr hx
        rw [hsort] at hx2
        rcases List.mem_cons.mp hx2 with rfl | hx3
        · exact strLe_refl _
        · have hsorted := sortedByDateDescB_sort (get_body_stats_history m).1
          rw [hsort] at hsorted
          exact sortedByDateDescB_head_max hsorted x hx3

/-- Claim C10, witness: on a concrete local store holding a February and a
January stat, the February entry returned by `get_latest_body_stat`
belongs to the history. -/
theorem c10_witness_latest :
    statFeb ∈ (get_body_stats_history dmLocalStats).1 :=
  ((c10_latest_is_max_date dmLocalStats).2 statFeb rfl).1

end Trackah
